import Mathlib

/-!
Shallow embedding of `logging.go` (package `logging`, jianingy/paw.logging):
a leveled logging facility with one `LogWriter` sink per severity level.
Pure Go functions become Lean functions; mutation of the `Logger` and of a
sink through an accessor reference becomes explicit state passing; writes
to `io.Writer` destinations become updates of an explicit `World` of
captured destination contents.
-/

/-- The seven severity levels, `type LogLevel int` with the `iota` constants
`LevelFatal .. LevelDebug` of `logging.go`. The Go type is an int; only the
seven named constants are ever used, so the embedding enumerates them and
exposes the underlying numeric value as `levelNum`. -/
inductive LogLevel where
  | LevelFatal
  | LevelCritical
  | LevelError
  | LevelWarning
  | LevelNotice
  | LevelInfo
  | LevelDebug
deriving DecidableEq

/-- The numeric value each `LogLevel` constant receives from `iota`:
FATAL=0, CRITICAL=1, ERROR=2, WARNING=3, NOTICE=4, INFO=5, DEBUG=6. -/
def levelNum : LogLevel → Nat
  | .LevelFatal => 0
  | .LevelCritical => 1
  | .LevelError => 2
  | .LevelWarning => 3
  | .LevelNotice => 4
  | .LevelInfo => 5
  | .LevelDebug => 6

/-- Model of `LevelString` / the `LevelNames` map of `logging.go`. -/
def LevelString : LogLevel → String
  | .LevelDebug => "DEBUG"
  | .LevelInfo => "INFO"
  | .LevelNotice => "NOTICE"
  | .LevelWarning => "WARN"
  | .LevelError => "ERROR"
  | .LevelCritical => "CRIT"
  | .LevelFatal => "FATAL"

/-- A destination (`io.Writer` capability): `discard` is `ioutil.Discard`,
`stdout` is `os.Stdout`, `buf n` is a capturing in-memory buffer (as the
`bytes.Buffer` of the tests), `broken n` is a caller-supplied writer whose
`Write` always returns an error and retains nothing. -/
inductive Dest where
  | discard
  | stdout
  | buf (n : Nat)
  | broken (n : Nat)
deriving DecidableEq

/-- The captured content of every destination. -/
structure World where
  stdoutContent : String
  bufContent : Nat → String

def emptyWorld : World := ⟨"", fun _ => ""⟩

/-- Model of `io.Writer.Write`: appends `s` to the destination's captured
content; `discard` accepts and drops the bytes, `broken` writers retain
nothing and report a write error. -/
def writeDest (d : Dest) (s : String) (w : World) : World × Option String :=
  match d with
  | .discard => (w, none)
  | .stdout => ({ w with stdoutContent := w.stdoutContent ++ s }, none)
  | .buf n => ({ w with bufContent := fun m => if m = n then w.bufContent m ++ s else w.bufContent m }, none)
  | .broken _ => (w, some "write error")

/-- The content captured so far at a destination; `discard` and `broken`
destinations retain nothing. -/
def readDest (d : Dest) (w : World) : String :=
  match d with
  | .stdout => w.stdoutContent
  | .buf n => w.bufContent n
  | .discard => ""
  | .broken _ => ""

/-- Destinations that capture the bytes written to them. -/
def isCapturing : Dest → Bool
  | .stdout => true
  | .buf _ => true
  | .discard => false
  | .broken _ => false

/-- One node of a parsed `text/template`: literal text or a field action
such as `\x7b\x7b.Message\x7d\x7d`. -/
inductive TmplItem where
  | lit (s : String)
  | field (name : String)
deriving DecidableEq

/-- A parsed template: the node list of the fragment of Go `text/template`
this package uses (literal text and `.Field` actions). -/
abbrev Template := List TmplItem

def isIdentChar (c : Char) : Bool := c.isAlphanum || c = '_'

/-- Splits off the literal text before the first action opener; returns the
remainder after the opener when there is one. -/
def untilOpen : List Char → List Char × Option (List Char)
  | [] => ([], none)
  | '{' :: '{' :: rest => ([], some rest)
  | c :: rest =>
    let (a, r) := untilOpen rest
    (c :: a, r)

/-- Reads an action body up to its closer; `none` when the action is never
closed (a parse error in `text/template`). -/
def untilClose : List Char → Option (List Char × List Char)
  | [] => none
  | '}' :: '}' :: rest => some ([], rest)
  | c :: rest => (untilClose rest).map fun p => (c :: p.1, p.2)

/-- Parses one action body: optional surrounding spaces, then `.Ident`.
Anything else (a bare word, which `text/template` would reject as an
undefined function, or malformed syntax) is a parse error. This models the
fragment of the `text/template` action grammar this package exercises. -/
def parseAction (cs : List Char) : Except String TmplItem :=
  let t := cs.dropWhile (· = ' ')
  let t := (t.reverse.dropWhile (· = ' ')).reverse
  match t with
  | '.' :: rest =>
    if rest ≠ [] ∧ rest.all isIdentChar then
      .ok (.field (String.mk rest))
    else
      .error "bad character in action"
  | _ => .error "function not defined"

def parseAux : Nat → List Char → Except String Template
  | 0, _ => .error "out of fuel"
  | fuel + 1, cs =>
    match untilOpen cs with
    | (litChars, none) =>
      .ok (if litChars = [] then [] else [.lit (String.mk litChars)])
    | (litChars, some rest) =>
      match untilClose rest with
      | none => .error "unclosed action"
      | some (act, rest2) =>
        match parseAction act with
        | .error e => .error e
        | .ok item =>
          match parseAux fuel rest2 with
          | .error e => .error e
          | .ok items =>
            .ok (if litChars = [] then item :: items else .lit (String.mk litChars) :: item :: items)

/-- Model of `template.New(name).Parse(format)` for the fragment of the
`text/template` grammar this package uses: literal text interleaved with
`.Field` actions. The template name only decorates Go's error messages and
is omitted. The fuel is an upper bound on the recursion depth; each
recursive step consumes at least two characters, so it is never exhausted. -/
def parseTemplate (format : String) : Except String Template :=
  parseAux (format.length + 1) format.data

/-- Model of `template.Must`: the colored template literals below parse, so
the panic branch (modelled by `[]`) is dead; see `coloredTemplatesParsed`
and `constructorsNeverPanic`. -/
def mustParse (s : String) : Template :=
  match parseTemplate s with
  | .ok t => t
  | .error _ => []

/-- The data handed to `template.Execute`: `type LogData struct` of
`logging.go`. -/
structure LogData where
  Time : String
  Level : String
  Message : String
deriving DecidableEq

/-- Field lookup during template execution: `LogData` exposes exactly
`Time`, `Level` and `Message`; any other field is an execution error
(Go: `can't evaluate field ...`). -/
def lookupField (data : LogData) : String → Option String
  | "Time" => some data.Time
  | "Level" => some data.Level
  | "Message" => some data.Message
  | _ => none

/-- Pure rendering of a template against a record: the text produced (the
partial output already emitted when execution fails midway) and the
execution error, if any. -/
def renderTemplate : Template → LogData → String × Option String
  | [], _ => ("", none)
  | .lit s :: rest, data =>
    (s ++ (renderTemplate rest data).1, (renderTemplate rest data).2)
  | .field f :: rest, data =>
    match lookupField data f with
    | some v =>
      (v ++ (renderTemplate rest data).1, (renderTemplate rest data).2)
    | none => ("", some ("cannot evaluate field " ++ f))

/-- Model of `template.Execute(w, data)`: walks the node list writing each
piece to the destination as it goes, stopping at the first field-lookup
failure or write error; partial output written before the failure stays
written. -/
def executeTemplate : Template → LogData → Dest → World → World × Option String
  | [], _, _, world => (world, none)
  | .lit s :: rest, data, d, world =>
    match writeDest d s world with
    | (w1, none) => executeTemplate rest data d w1
    | (w1, some e) => (w1, some e)
  | .field f :: rest, data, d, world =>
    match lookupField data f with
    | some v =>
      match writeDest d v world with
      | (w1, none) => executeTemplate rest data d w1
      | (w1, some e) => (w1, some e)
    | none => (world, some ("cannot evaluate field " ++ f))

/-- An argument value passed to `Print`/`Printf` (`interface\x7b\x7d` in Go):
the strings and ints the package's callers use. -/
inductive GoValue where
  | str (s : String)
  | int (n : Int)
deriving DecidableEq

def valueString : GoValue → String
  | .str s => s
  | .int n => toString n

def valueIsString : GoValue → Bool
  | .str _ => true
  | .int _ => false

/-- Model of `fmt.Sprint(v...)`: operands concatenated, with a space added
between two operands when neither is a string. -/
def sprint : List GoValue → String
  | [] => ""
  | [x] => valueString x
  | x :: y :: rest =>
    valueString x ++ (if valueIsString x || valueIsString y then "" else " ") ++ sprint (y :: rest)

/-- Model of `fmt.Sprintf` for the verbs this package's callers use
(`%d` on an int, `%s` on a string, `%%`); other text is copied verbatim. -/
def sprintfAux : List Char → List GoValue → String
  | [], _ => ""
  | '%' :: 'd' :: rest, .int n :: args => toString n ++ sprintfAux rest args
  | '%' :: 's' :: rest, .str s :: args => s ++ sprintfAux rest args
  | '%' :: '%' :: rest, args => "%" ++ sprintfAux rest args
  | c :: rest, args => String.singleton c ++ sprintfAux rest args

def sprintf (format : String) (args : List GoValue) : String :=
  sprintfAux format.data args

/-- An abstract time instant (`time.Time`). -/
abbrev GoTime := Nat

/-- Model of Go `time.Time.Format`: renders the instant `t` according to
`layout`. The Go standard library's textual algorithm is not reproduced;
the model keeps what the code under verification depends on: the output is
a function of the layout and the instant, and distinct layouts render
distinguishably. -/
def formatTime (layout : String) (t : GoTime) : String :=
  "<" ++ layout ++ "|" ++ toString t ++ ">"

/-- The `time.ANSIC` layout constant. -/
def ansic : String := "Mon Jan _2 15:04:05 2006"

/-- Embeds `type LogWriter struct`: one severity level's sink. -/
structure LogWriter where
  writer : Dest
  level : LogLevel
  template : Template
deriving DecidableEq

/-- Embeds `type Logger struct`. The seven `*LogWriter` fields, in the source's
declaration order. -/
structure Logger where
  defaultLogWriter : Dest
  name : String
  outputLevel : LogLevel
  timeFormat : String
  DEBUG : LogWriter
  INFO : LogWriter
  NOTICE : LogWriter
  WARN : LogWriter
  ERROR : LogWriter
  CRITICAL : LogWriter
  FATAL : LogWriter

/-- The constant `DefaultLogFormat` of `logging.go`:
`\x7b\x7b.Time\x7d\x7d [\x7b\x7b.Level\x7d\x7d] \x7b\x7b.Message\x7d\x7d`. -/
def DefaultLogFormat : String :=
  "\x7b\x7b.Time\x7d\x7d [\x7b\x7b.Level\x7d\x7d] \x7b\x7b.Message\x7d\x7d"

def DefaultLogLevel : LogLevel := .LevelNotice

def EOL : String := "\n"

/-- The package variable `DefaultLogWriter = os.Stdout`. -/
def DefaultLogWriter : Dest := .stdout

/-- Embeds `func (w *LogWriter) SetWriter`. -/
def LogWriter.SetWriter (w : LogWriter) (writer : Dest) : LogWriter :=
  { w with writer := writer }

/-- Embeds `func (w *LogWriter) SetTemplate`. -/
def LogWriter.SetTemplate (w : LogWriter) (tmpl : Template) : LogWriter :=
  { w with template := tmpl }

/-- Embeds `func (l *Logger) foreachLogWriter`: the source discovers the seven
`*LogWriter` fields by reflection, in field declaration order, and applies
`f` to each; the effect is updating each sink field by `f`. -/
def Logger.foreachLogWriter (l : Logger) (f : LogWriter → LogWriter) : Logger :=
  { l with
    DEBUG := f l.DEBUG
    INFO := f l.INFO
    NOTICE := f l.NOTICE
    WARN := f l.WARN
    ERROR := f l.ERROR
    CRITICAL := f l.CRITICAL
    FATAL := f l.FATAL }

/-- Embeds `func (l *Logger) OutputLevel`. -/
def Logger.OutputLevel (l : Logger) : LogLevel := l.outputLevel

/-- Embeds `func (l *Logger) SetWriter`: for every sink, if the sink's level is
numerically above the output level, point it at the discard destination,
otherwise at `writer`; then record `writer` as the default log writer. -/
def Logger.SetWriter (l : Logger) (writer : Dest) : Logger :=
  let l1 := l.foreachLogWriter fun w =>
    if levelNum w.level > levelNum l.outputLevel then
      w.SetWriter .discard
    else
      w.SetWriter writer
  { l1 with defaultLogWriter := writer }

/-- Embeds `func (l *Logger) SetOutputLevel`: store the level, then redistribute
via `SetWriter` with the recorded default log writer. -/
def Logger.SetOutputLevel (l : Logger) (level : LogLevel) : Logger :=
  let l1 := { l with outputLevel := level }
  l1.SetWriter l1.defaultLogWriter

/-- Embeds `func (l *Logger) SetFormat`: parse the format; on success install the
one parsed template in every sink and return no error, otherwise return
the parse error with the logger untouched (Go mutates nothing on the error
path). -/
def Logger.SetFormat (l : Logger) (format : String) : Logger × Option String :=
  match parseTemplate format with
  | .ok tmpl => (l.foreachLogWriter fun w => w.SetTemplate tmpl, none)
  | .error e => (l, some e)

/-- Embeds `func (l *Logger) SetTimeFormat`. -/
def Logger.SetTimeFormat (l : Logger) (format : String) : Logger :=
  { l with timeFormat := format }

/-- Embeds `func (w *LogWriter) Printf`: builds the record — formatting the
current time with the constant `time.ANSIC` layout — executes the sink's
template into its writer, then writes `EOL`; both the execution error and
the write error are discarded. -/
def LogWriter.Printf (w : LogWriter) (now : GoTime) (format : String) (v : List GoValue) (world : World) : World :=
  let data : LogData :=
    { Time := formatTime ansic now, Level := LevelString w.level, Message := sprintf format v }
  let r1 := executeTemplate w.template data w.writer world
  let r2 := writeDest w.writer EOL r1.1
  r2.1

/-- Embeds `func (w *LogWriter) Print`: as `Printf` but the message is
`fmt.Sprint(v...)`. -/
def LogWriter.Print (w : LogWriter) (now : GoTime) (v : List GoValue) (world : World) : World :=
  let data : LogData :=
    { Time := formatTime ansic now, Level := LevelString w.level, Message := sprint v }
  let r1 := executeTemplate w.template data w.writer world
  let r2 := writeDest w.writer EOL r1.1
  r2.1

/-- The colored default templates, `TemplateDebug .. TemplateFatal`. -/
def TemplateDebug : Template :=
  mustParse "\x7b\x7b.Time\x7d\x7d \x1b[37m[\x7b\x7b.Level\x7d\x7d] \x7b\x7b.Message\x7d\x7d \x1b[0m"

def TemplateInfo : Template :=
  mustParse "\x7b\x7b.Time\x7d\x7d \x1b[32m[\x7b\x7b.Level\x7d\x7d] \x7b\x7b.Message\x7d\x7d \x1b[0m"

def TemplateNotice : Template :=
  mustParse "\x7b\x7b.Time\x7d\x7d \x1b[34m[\x7b\x7b.Level\x7d\x7d] \x7b\x7b.Message\x7d\x7d \x1b[0m"

def TemplateWarning : Template :=
  mustParse "\x7b\x7b.Time\x7d\x7d \x1b[33m[\x7b\x7b.Level\x7d\x7d] \x7b\x7b.Message\x7d\x7d \x1b[0m"

def TemplateError : Template :=
  mustParse "\x7b\x7b.Time\x7d\x7d \x1b[31m[\x7b\x7b.Level\x7d\x7d] \x7b\x7b.Message\x7d\x7d \x1b[0m"

def TemplateCritical : Template :=
  mustParse "\x7b\x7b.Time\x7d\x7d \x1b[35m[\x7b\x7b.Level\x7d\x7d] \x7b\x7b.Message\x7d\x7d \x1b[0m"

def TemplateFatal : Template :=
  mustParse "\x7b\x7b.Time\x7d\x7d \x1b[30;41m[\x7b\x7b.Level\x7d\x7d] \x7b\x7b.Message\x7d\x7d \x1b[0m"

/-- Embeds `func createLogger`. The `format` parameter is accepted but, exactly as
in the source, `SetFormat` is invoked with `DefaultLogFormat`. The Go zero
values of the sink fields (nil writer, nil template) are modelled as
`.discard` / `[]`; both are overwritten by the `SetWriter` and `SetFormat`
calls below before the constructor returns. -/
def createLogger (name : String) (format : String) : Except String Logger :=
  let logger : Logger :=
    { name := name
      timeFormat := ansic
      outputLevel := DefaultLogLevel
      defaultLogWriter := DefaultLogWriter
      DEBUG := { writer := .discard, level := .LevelDebug, template := [] }
      INFO := { writer := .discard, level := .LevelInfo, template := [] }
      NOTICE := { writer := .discard, level := .LevelNotice, template := [] }
      WARN := { writer := .discard, level := .LevelWarning, template := [] }
      ERROR := { writer := .discard, level := .LevelError, template := [] }
      CRITICAL := { writer := .discard, level := .LevelCritical, template := [] }
      FATAL := { writer := .discard, level := .LevelFatal, template := [] } }
  let logger := logger.SetWriter logger.defaultLogWriter
  match logger.SetFormat DefaultLogFormat with
  | (l2, none) => Except.ok l2
  | (_, some e) => Except.error e

/-- Embeds `func NewLogger`: `createLogger`, then each sink receives its colored
preset template; `none` models the (dead) panic branch. -/
def NewLogger (name : String) : Option Logger :=
  match createLogger name DefaultLogFormat with
  | .ok logger =>
    some { logger with
      DEBUG := logger.DEBUG.SetTemplate TemplateDebug
      INFO := logger.INFO.SetTemplate TemplateInfo
      NOTICE := logger.NOTICE.SetTemplate TemplateNotice
      WARN := logger.WARN.SetTemplate TemplateWarning
      ERROR := logger.ERROR.SetTemplate TemplateError
      CRITICAL := logger.CRITICAL.SetTemplate TemplateCritical
      FATAL := logger.FATAL.SetTemplate TemplateFatal }
  | .error _ => none

/-- Embeds `func NewPlainLogger`; `none` models the (dead) panic branch. -/
def NewPlainLogger (name : String) : Option Logger :=
  match createLogger name DefaultLogFormat with
  | .ok logger => some logger
  | .error _ => none

/-- The sink a `Logger` owns for a given level (the named accessor
fields). -/
def sinkFor (l : Logger) : LogLevel → LogWriter
  | .LevelDebug => l.DEBUG
  | .LevelInfo => l.INFO
  | .LevelNotice => l.NOTICE
  | .LevelWarning => l.WARN
  | .LevelError => l.ERROR
  | .LevelCritical => l.CRITICAL
  | .LevelFatal => l.FATAL

/-- The Go caller pattern `l.<LEVEL>.SetWriter(d)`: mutation of one owned
sink through the accessor reference. -/
def Logger.sinkSetWriter (l : Logger) : LogLevel → Dest → Logger
  | .LevelDebug, d => { l with DEBUG := l.DEBUG.SetWriter d }
  | .LevelInfo, d => { l with INFO := l.INFO.SetWriter d }
  | .LevelNotice, d => { l with NOTICE := l.NOTICE.SetWriter d }
  | .LevelWarning, d => { l with WARN := l.WARN.SetWriter d }
  | .LevelError, d => { l with ERROR := l.ERROR.SetWriter d }
  | .LevelCritical, d => { l with CRITICAL := l.CRITICAL.SetWriter d }
  | .LevelFatal, d => { l with FATAL := l.FATAL.SetWriter d }

/-- The Go caller pattern `l.<LEVEL>.SetTemplate(t)`. -/
def Logger.sinkSetTemplate (l : Logger) : LogLevel → Template → Logger
  | .LevelDebug, t => { l with DEBUG := l.DEBUG.SetTemplate t }
  | .LevelInfo, t => { l with INFO := l.INFO.SetTemplate t }
  | .LevelNotice, t => { l with NOTICE := l.NOTICE.SetTemplate t }
  | .LevelWarning, t => { l with WARN := l.WARN.SetTemplate t }
  | .LevelError, t => { l with ERROR := l.ERROR.SetTemplate t }
  | .LevelCritical, t => { l with CRITICAL := l.CRITICAL.SetTemplate t }
  | .LevelFatal, t => { l with FATAL := l.FATAL.SetTemplate t }

/-- A concrete logger used to instantiate witnesses. -/
def testLogger : Logger :=
  { defaultLogWriter := .stdout
    name := "testing"
    outputLevel := DefaultLogLevel
    timeFormat := ansic
    DEBUG := { writer := .discard, level := .LevelDebug, template := [] }
    INFO := { writer := .discard, level := .LevelInfo, template := [] }
    NOTICE := { writer := .stdout, level := .LevelNotice, template := [] }
    WARN := { writer := .stdout, level := .LevelWarning, template := [] }
    ERROR := { writer := .stdout, level := .LevelError, template := [] }
    CRITICAL := { writer := .stdout, level := .LevelCritical, template := [] }
    FATAL := { writer := .stdout, level := .LevelFatal, template := [] } }

/-- The preset colorized template each level receives in `NewLogger`. -/
def coloredTemplate : LogLevel → Template
  | .LevelDebug => TemplateDebug
  | .LevelInfo => TemplateInfo
  | .LevelNotice => TemplateNotice
  | .LevelWarning => TemplateWarning
  | .LevelError => TemplateError
  | .LevelCritical => TemplateCritical
  | .LevelFatal => TemplateFatal

/-- The template `\x7b\x7b.Time\x7d\x7d`, rendering only the timestamp. -/
def timeOnlyTemplate : Template := mustParse "\x7b\x7b.Time\x7d\x7d"

/-- A logger whose NOTICE sink renders only the timestamp into buffer 0,
after the caller has asked for the time format `2006-01-02`. -/
def buggyLogger : Logger :=
  ((testLogger.sinkSetTemplate .LevelNotice timeOnlyTemplate).sinkSetWriter
    .LevelNotice (.buf 0)).SetTimeFormat "2006-01-02"

/-- The format string the spec writes as `> \x7bLevel\x7d \x7bMessage\x7d`
(the spec uses the single-brace placeholder notation for what is
`\x7b\x7b.Level\x7d\x7d` etc. in the Go template syntax, as it also does
for the default template). -/
def arrowFormat : String := "> \x7b\x7b.Level\x7d\x7d \x7b\x7b.Message\x7d\x7d"

/-- A sink whose template fails at execution time (`.Foo` is not a
`LogData` field), attached to the capturing buffer 0. -/
def failingSink : LogWriter :=
  { writer := .buf 0, level := .LevelNotice, template := mustParse "A\x7b\x7b.Foo\x7d\x7dB" }

/-- A sink-level-bookkeeping invariant: each of the seven sink fields
carries its own fixed level, as every constructor establishes and no
operation disturbs. -/
def levelsWellFormed (l : Logger) : Prop :=
  l.DEBUG.level = .LevelDebug ∧ l.INFO.level = .LevelInfo ∧ l.NOTICE.level = .LevelNotice ∧
  l.WARN.level = .LevelWarning ∧ l.ERROR.level = .LevelError ∧
  l.CRITICAL.level = .LevelCritical ∧ l.FATAL.level = .LevelFatal

instance (l : Logger) : Decidable (levelsWellFormed l) := by
  unfold levelsWellFormed
  infer_instance

theorem sinkFor_level (l : Logger) (h : levelsWellFormed l) (L : LogLevel) :
    (sinkFor l L).level = L := by
  obtain ⟨h1, h2, h3, h4, h5, h6, h7⟩ := h
  cases L <;> assumption

theorem sinkFor_SetWriter (l : Logger) (d : Dest) (L : LogLevel) :
    sinkFor (l.SetWriter d) L =
      if levelNum (sinkFor l L).level > levelNum l.outputLevel then
        (sinkFor l L).SetWriter .discard
      else
        (sinkFor l L).SetWriter d := by
  cases L <;> rfl

theorem sinkFor_SetOutputLevel (l : Logger) (T L : LogLevel) :
    sinkFor (l.SetOutputLevel T) L =
      if levelNum (sinkFor l L).level > levelNum T then
        (sinkFor l L).SetWriter .discard
      else
        (sinkFor l L).SetWriter l.defaultLogWriter := by
  cases L <;> rfl

theorem SetWriter_defaultLogWriter (l : Logger) (d : Dest) :
    (l.SetWriter d).defaultLogWriter = d := rfl

theorem SetWriter_outputLevel (l : Logger) (d : Dest) :
    (l.SetWriter d).outputLevel = l.outputLevel := rfl

theorem SetOutputLevel_outputLevel (l : Logger) (T : LogLevel) :
    (l.SetOutputLevel T).outputLevel = T := rfl

theorem SetOutputLevel_defaultLogWriter (l : Logger) (T : LogLevel) :
    (l.SetOutputLevel T).defaultLogWriter = l.defaultLogWriter := rfl

theorem setWriter_writer_eq (l : Logger) (h : levelsWellFormed l) (d : Dest) (L : LogLevel) :
    (sinkFor (l.SetWriter d) L).writer =
      if levelNum L ≤ levelNum l.outputLevel then d else Dest.discard := by
  rw [sinkFor_SetWriter, sinkFor_level l h L]
  by_cases hle : levelNum L ≤ levelNum l.outputLevel
  · rw [if_neg (by omega), if_pos hle]
    rfl
  · rw [if_pos (by omega), if_neg hle]
    rfl

theorem setOutputLevel_writer_eq (l : Logger) (h : levelsWellFormed l) (T L : LogLevel) :
    (sinkFor (l.SetOutputLevel T) L).writer =
      if levelNum L ≤ levelNum T then l.defaultLogWriter else Dest.discard := by
  rw [sinkFor_SetOutputLevel, sinkFor_level l h L]
  by_cases hle : levelNum L ≤ levelNum T
  · rw [if_neg (by omega), if_pos hle]
    rfl
  · rw [if_pos (by omega), if_neg hle]
    rfl

theorem setWriter_template_frame (l : Logger) (d : Dest) (L : LogLevel) :
    (sinkFor (l.SetWriter d) L).template = (sinkFor l L).template := by
  rw [sinkFor_SetWriter]
  split <;> rfl

theorem setOutputLevel_template_frame (l : Logger) (T L : LogLevel) :
    (sinkFor (l.SetOutputLevel T) L).template = (sinkFor l L).template := by
  rw [sinkFor_SetOutputLevel]
  split <;> rfl

theorem setWriter_level_frame (l : Logger) (d : Dest) (L : LogLevel) :
    (sinkFor (l.SetWriter d) L).level = (sinkFor l L).level := by
  rw [sinkFor_SetWriter]
  split <;> rfl

theorem sinkSetWriter_outputLevel (l : Logger) (L0 : LogLevel) (d0 : Dest) :
    (l.sinkSetWriter L0 d0).outputLevel = l.outputLevel := by
  cases L0 <;> rfl

theorem sinkSetWriter_defaultLogWriter (l : Logger) (L0 : LogLevel) (d0 : Dest) :
    (l.sinkSetWriter L0 d0).defaultLogWriter = l.defaultLogWriter := by
  cases L0 <;> rfl

theorem sinkSetTemplate_outputLevel (l : Logger) (L0 : LogLevel) (t0 : Template) :
    (l.sinkSetTemplate L0 t0).outputLevel = l.outputLevel := by
  cases L0 <;> rfl

theorem sinkSetTemplate_defaultLogWriter (l : Logger) (L0 : LogLevel) (t0 : Template) :
    (l.sinkSetTemplate L0 t0).defaultLogWriter = l.defaultLogWriter := by
  cases L0 <;> rfl

theorem wf_sinkSetWriter (l : Logger) (h : levelsWellFormed l) (L0 : LogLevel) (d0 : Dest) :
    levelsWellFormed (l.sinkSetWriter L0 d0) := by
  obtain ⟨h1, h2, h3, h4, h5, h6, h7⟩ := h
  cases L0 <;>
    exact ⟨by simpa [Logger.sinkSetWriter, LogWriter.SetWriter], by simpa [Logger.sinkSetWriter, LogWriter.SetWriter],
      by simpa [Logger.sinkSetWriter, LogWriter.SetWriter], by simpa [Logger.sinkSetWriter, LogWriter.SetWriter],
      by simpa [Logger.sinkSetWriter, LogWriter.SetWriter], by simpa [Logger.sinkSetWriter, LogWriter.SetWriter],
      by simpa [Logger.sinkSetWriter, LogWriter.SetWriter]⟩

theorem wf_sinkSetTemplate (l : Logger) (h : levelsWellFormed l) (L0 : LogLevel) (t0 : Template) :
    levelsWellFormed (l.sinkSetTemplate L0 t0) := by
  obtain ⟨h1, h2, h3, h4, h5, h6, h7⟩ := h
  cases L0 <;>
    exact ⟨by simpa [Logger.sinkSetTemplate, LogWriter.SetTemplate], by simpa [Logger.sinkSetTemplate, LogWriter.SetTemplate],
      by simpa [Logger.sinkSetTemplate, LogWriter.SetTemplate], by simpa [Logger.sinkSetTemplate, LogWriter.SetTemplate],
      by simpa [Logger.sinkSetTemplate, LogWriter.SetTemplate], by simpa [Logger.sinkSetTemplate, LogWriter.SetTemplate],
      by simpa [Logger.sinkSetTemplate, LogWriter.SetTemplate]⟩

theorem sinkSetTemplate_template_self (l : Logger) (L0 : LogLevel) (t0 : Template) :
    (sinkFor (l.sinkSetTemplate L0 t0) L0).template = t0 := by
  cases L0 <;> rfl

theorem readDest_writeDest (d d' : Dest) (s : String) (w : World) :
    readDest d' (writeDest d s w).1 =
      if d' = d ∧ isCapturing d = true then readDest d' w ++ s else readDest d' w := by
  cases d <;> rcases d' with _ | _ | m | k <;>
    simp [writeDest, readDest, isCapturing]

theorem exec_discard (t : Template) (data : LogData) (w : World) :
    executeTemplate t data .discard w = (w, (renderTemplate t data).2) := by
  induction t with
  | nil => simp [executeTemplate, renderTemplate]
  | cons item rest ih =>
    cases item with
    | lit s => simpa [executeTemplate, writeDest, renderTemplate] using ih
    | field f =>
      cases hlf : lookupField data f with
      | none => simp [executeTemplate, hlf, renderTemplate]
      | some v => simpa [executeTemplate, writeDest, hlf, renderTemplate] using ih

theorem exec_broken (t : Template) (data : LogData) (k : Nat) (w : World) :
    (executeTemplate t data (.broken k) w).1 = w := by
  cases t with
  | nil => rfl
  | cons item rest =>
    cases item with
    | lit s => simp [executeTemplate, writeDest]
    | field f =>
      cases hlf : lookupField data f with
      | none => simp [executeTemplate, hlf]
      | some v => simp [executeTemplate, writeDest, hlf]

theorem exec_stdout (t : Template) (data : LogData) (w : World) :
    (executeTemplate t data .stdout w).1 =
      { w with stdoutContent := w.stdoutContent ++ (renderTemplate t data).1 } := by
  induction t generalizing w with
  | nil => simp [executeTemplate, renderTemplate]
  | cons item rest ih =>
    cases item with
    | lit s =>
      simp [executeTemplate, writeDest, renderTemplate, ih, String.append_assoc]
    | field f =>
      cases hlf : lookupField data f with
      | none => simp [executeTemplate, hlf, renderTemplate]
      | some v =>
        simp [executeTemplate, writeDest, hlf, renderTemplate, ih, String.append_assoc]

theorem exec_buf (t : Template) (data : LogData) (n : Nat) (w : World) :
    (executeTemplate t data (.buf n) w).1 =
      { w with bufContent := fun m =>
          if m = n then w.bufContent m ++ (renderTemplate t data).1 else w.bufContent m } := by
  induction t generalizing w with
  | nil =>
    simp only [executeTemplate, renderTemplate]
    cases w with
    | mk so bc =>
      simp only [World.mk.injEq, true_and]
      funext m
      split <;> simp
  | cons item rest ih =>
    cases item with
    | lit s =>
      simp only [executeTemplate, writeDest, renderTemplate, ih]
      cases w with
      | mk so bc =>
        simp only [World.mk.injEq, true_and]
        funext m
        by_cases hmn : m = n <;> simp [hmn, String.append_assoc]
    | field f =>
      cases hlf : lookupField data f with
      | none =>
        simp only [executeTemplate, hlf, renderTemplate]
        cases w with
        | mk so bc =>
          simp only [World.mk.injEq, true_and]
          funext m
          split <;> simp
      | some v =>
        simp only [executeTemplate, writeDest, hlf, renderTemplate, ih]
        cases w with
        | mk so bc =>
          simp only [World.mk.injEq, true_and]
          funext m
          by_cases hmn : m = n <;> simp [hmn, String.append_assoc]

theorem executeTemplate_readDest (t : Template) (data : LogData) (d : Dest) (w : World) (d' : Dest) :
    readDest d' (executeTemplate t data d w).1 =
      if d' = d ∧ isCapturing d = true then readDest d' w ++ (renderTemplate t data).1
      else readDest d' w := by
  cases d with
  | discard => simp [exec_discard, isCapturing]
  | broken k => simp [exec_broken, isCapturing]
  | stdout =>
    rw [exec_stdout]
    rcases d' with _ | _ | m | k <;> simp [readDest, isCapturing]
  | buf n =>
    rw [exec_buf]
    rcases d' with _ | _ | m | k <;> simp [readDest, isCapturing]

theorem Print_readDest (w : LogWriter) (now : GoTime) (v : List GoValue) (world : World) (d' : Dest) :
    readDest d' (w.Print now v world) =
      if d' = w.writer ∧ isCapturing w.writer = true then
        readDest d' world ++
          (renderTemplate w.template
            { Time := formatTime ansic now, Level := LevelString w.level, Message := sprint v }).1 ++ EOL
      else readDest d' world := by
  simp only [LogWriter.Print]
  rw [readDest_writeDest, executeTemplate_readDest]
  by_cases hc : d' = w.writer ∧ isCapturing w.writer = true <;>
    simp [hc, String.append_assoc]

theorem Printf_readDest (w : LogWriter) (now : GoTime) (format : String) (v : List GoValue) (world : World) (d' : Dest) :
    readDest d' (w.Printf now format v world) =
      if d' = w.writer ∧ isCapturing w.writer = true then
        readDest d' world ++
          (renderTemplate w.template
            { Time := formatTime ansic now, Level := LevelString w.level, Message := sprintf format v }).1 ++ EOL
      else readDest d' world := by
  simp only [LogWriter.Printf]
  rw [readDest_writeDest, executeTemplate_readDest]
  by_cases hc : d' = w.writer ∧ isCapturing w.writer = true <;>
    simp [hc, String.append_assoc]

/-- C1: after a Logger-wide `SetWriter d` performed while the threshold is
`T = l.outputLevel`, the sink for level `L` holds destination `d` iff
`levelNum L ≤ levelNum T` (under FATAL=0 < CRITICAL=1 < ERROR=2 <
WARNING=3 < NOTICE=4 < INFO=5 < DEBUG=6) and the discard destination
otherwise; consequently a subsequent emission at `L` changes the captured
content of a capturing destination `buf n` exactly when
`levelNum L ≤ levelNum T`. -/
theorem C1_setWriter_threshold_routing (l : Logger) (h : levelsWellFormed l)
    (d : Dest) (L : LogLevel) (n : Nat) (now : GoTime) (v : List GoValue) (world : World) :
    ((sinkFor (l.SetWriter d) L).writer =
      if levelNum L ≤ levelNum l.outputLevel then d else Dest.discard)
    ∧ (readDest (.buf n) ((sinkFor (l.SetWriter (.buf n)) L).Print now v world) ≠
        readDest (.buf n) world
      ↔ levelNum L ≤ levelNum l.outputLevel) := by
  refine ⟨setWriter_writer_eq l h d L, ?_⟩
  rw [Print_readDest, setWriter_writer_eq l h (.buf n) L]
  by_cases hle : levelNum L ≤ levelNum l.outputLevel
  · rw [if_pos hle,
      if_pos (⟨rfl, rfl⟩ : Dest.buf n = Dest.buf n ∧ isCapturing (Dest.buf n) = true)]
    refine iff_of_true ?_ hle
    intro heq
    have hlen := congrArg String.length heq
    have hE : EOL.length = 1 := rfl
    simp only [String.length_append, hE] at hlen
    omega
  · rw [if_neg hle, if_neg (by simp [isCapturing])]
    exact iff_of_false (by simp) hle

theorem C1_setWriter_threshold_routing_witness :
    levelsWellFormed testLogger
    ∧ (((sinkFor (testLogger.SetWriter (Dest.buf 1)) .LevelError).writer =
        if levelNum .LevelError ≤ levelNum testLogger.outputLevel then Dest.buf 1 else Dest.discard)
      ∧ (readDest (.buf 1) ((sinkFor (testLogger.SetWriter (.buf 1)) .LevelError).Print 0 [.str "m"] emptyWorld) ≠
          readDest (.buf 1) emptyWorld
        ↔ levelNum .LevelError ≤ levelNum testLogger.outputLevel)) :=
  ⟨by decide,
    C1_setWriter_threshold_routing testLogger (by decide) (Dest.buf 1) .LevelError 1 0 [.str "m"] emptyWorld⟩

/-- C3: `SetOutputLevel T2` stores `T2` as the threshold, keeps the recorded
default destination, and redistributes so that every level enabled under
`T2` holds the recorded default destination (regardless of any destination
the sink held before) and every level below `T2` holds the discard
destination. -/
theorem C3_setOutputLevel_redistributes (l : Logger) (h : levelsWellFormed l) (T2 L : LogLevel) :
    (l.SetOutputLevel T2).outputLevel = T2
    ∧ (l.SetOutputLevel T2).defaultLogWriter = l.defaultLogWriter
    ∧ ((sinkFor (l.SetOutputLevel T2) L).writer =
        if levelNum L ≤ levelNum T2 then l.defaultLogWriter else Dest.discard) :=
  ⟨rfl, rfl, setOutputLevel_writer_eq l h T2 L⟩

theorem C3_setOutputLevel_redistributes_witness :
    levelsWellFormed testLogger
    ∧ ((testLogger.SetOutputLevel .LevelError).outputLevel = .LevelError
      ∧ (testLogger.SetOutputLevel .LevelError).defaultLogWriter = testLogger.defaultLogWriter
      ∧ ((sinkFor (testLogger.SetOutputLevel .LevelError) .LevelNotice).writer =
          if levelNum .LevelNotice ≤ levelNum .LevelError then testLogger.defaultLogWriter
          else Dest.discard)) :=
  ⟨by decide, C3_setOutputLevel_redistributes testLogger (by decide) .LevelError .LevelNotice⟩

/-- C4: a per-sink destination override (`l.<LEVEL>.SetWriter d0`) does not
survive a later Logger-wide `SetWriter` or `SetOutputLevel`: afterwards
every sink's destination is determined purely by the threshold rule (the
new/default destination when enabled, discard otherwise), independent of
`d0`. -/
theorem C4_override_not_surviving (l : Logger) (h : levelsWellFormed l)
    (L0 : LogLevel) (d0 d : Dest) (T L : LogLevel) :
    ((sinkFor ((l.sinkSetWriter L0 d0).SetWriter d) L).writer =
      if levelNum L ≤ levelNum l.outputLevel then d else Dest.discard)
    ∧ ((sinkFor ((l.sinkSetWriter L0 d0).SetOutputLevel T) L).writer =
      if levelNum L ≤ levelNum T then l.defaultLogWriter else Dest.discard) := by
  have hwf := wf_sinkSetWriter l h L0 d0
  constructor
  · rw [setWriter_writer_eq _ hwf d L, sinkSetWriter_outputLevel]
  · rw [setOutputLevel_writer_eq _ hwf T L, sinkSetWriter_defaultLogWriter]

theorem C4_override_not_surviving_witness :
    levelsWellFormed testLogger
    ∧ (((sinkFor ((testLogger.sinkSetWriter .LevelNotice (.buf 5)).SetWriter (.buf 2)) .LevelNotice).writer =
        if levelNum .LevelNotice ≤ levelNum testLogger.outputLevel then Dest.buf 2 else Dest.discard)
      ∧ ((sinkFor ((testLogger.sinkSetWriter .LevelNotice (.buf 5)).SetOutputLevel .LevelDebug) .LevelNotice).writer =
        if levelNum .LevelNotice ≤ levelNum .LevelDebug then testLogger.defaultLogWriter else Dest.discard)) :=
  ⟨by decide,
    C4_override_not_surviving testLogger (by decide) .LevelNotice (.buf 5) (.buf 2) .LevelDebug .LevelNotice⟩

/-- C5: a per-sink template override (`l.<LEVEL>.SetTemplate t0`) is left
unchanged by Logger-wide `SetWriter` and `SetOutputLevel` (they touch only
destinations), and the overridden template governs that sink's subsequent
emissions. -/
theorem C5_templates_survive_distribution (l : Logger) (h : levelsWellFormed l)
    (t0 : Template) (L0 L T : LogLevel) (d : Dest)
    (n : Nat) (now : GoTime) (v : List GoValue) (world : World) :
    ((sinkFor ((l.sinkSetTemplate L0 t0).SetWriter d) L).template =
      (sinkFor (l.sinkSetTemplate L0 t0) L).template)
    ∧ ((sinkFor ((l.sinkSetTemplate L0 t0).SetOutputLevel T) L).template =
      (sinkFor (l.sinkSetTemplate L0 t0) L).template)
    ∧ ((sinkFor (l.sinkSetTemplate L0 t0) L0).template = t0)
    ∧ (readDest (.buf n) ((sinkFor ((l.sinkSetTemplate L0 t0).SetWriter (.buf n)) L0).Print now v world) =
        if levelNum L0 ≤ levelNum l.outputLevel then
          readDest (.buf n) world ++
            (renderTemplate t0
              { Time := formatTime ansic now, Level := LevelString L0, Message := sprint v }).1 ++ EOL
        else readDest (.buf n) world) := by
  have hwf := wf_sinkSetTemplate l h L0 t0
  refine ⟨setWriter_template_frame _ d L, setOutputLevel_template_frame _ T L,
    sinkSetTemplate_template_self l L0 t0, ?_⟩
  have hw : (sinkFor ((l.sinkSetTemplate L0 t0).SetWriter (.buf n)) L0).writer =
      if levelNum L0 ≤ levelNum (l.sinkSetTemplate L0 t0).outputLevel then Dest.buf n
      else Dest.discard :=
    setWriter_writer_eq _ hwf (.buf n) L0
  have ht : (sinkFor ((l.sinkSetTemplate L0 t0).SetWriter (.buf n)) L0).template = t0 := by
    rw [setWriter_template_frame, sinkSetTemplate_template_self]
  have hlev : (sinkFor ((l.sinkSetTemplate L0 t0).SetWriter (.buf n)) L0).level = L0 := by
    rw [setWriter_level_frame]
    exact sinkFor_level _ hwf L0
  rw [Print_readDest, hw, ht, hlev, sinkSetTemplate_outputLevel]
  by_cases hle : levelNum L0 ≤ levelNum l.outputLevel <;> simp [hle, isCapturing]

theorem C5_templates_survive_distribution_witness :
    levelsWellFormed testLogger
    ∧ (((sinkFor ((testLogger.sinkSetTemplate .LevelNotice [TmplItem.lit "X"]).SetWriter (.buf 2)) .LevelDebug).template =
        (sinkFor (testLogger.sinkSetTemplate .LevelNotice [TmplItem.lit "X"]) .LevelDebug).template)
      ∧ ((sinkFor ((testLogger.sinkSetTemplate .LevelNotice [TmplItem.lit "X"]).SetOutputLevel .LevelError) .LevelDebug).template =
        (sinkFor (testLogger.sinkSetTemplate .LevelNotice [TmplItem.lit "X"]) .LevelDebug).template)
      ∧ ((sinkFor (testLogger.sinkSetTemplate .LevelNotice [TmplItem.lit "X"]) .LevelNotice).template = [TmplItem.lit "X"])
      ∧ (readDest (.buf 3) ((sinkFor ((testLogger.sinkSetTemplate .LevelNotice [TmplItem.lit "X"]).SetWriter (.buf 3)) .LevelNotice).Print 0 [.str "m"] emptyWorld) =
          if levelNum .LevelNotice ≤ levelNum testLogger.outputLevel then
            readDest (.buf 3) emptyWorld ++
              (renderTemplate [TmplItem.lit "X"]
                { Time := formatTime ansic 0, Level := LevelString .LevelNotice, Message := sprint [.str "m"] }).1 ++ EOL
          else readDest (.buf 3) emptyWorld)) :=
  ⟨by decide,
    C5_templates_survive_distribution testLogger (by decide) [TmplItem.lit "X"]
      .LevelNotice .LevelDebug .LevelError (.buf 2) 3 0 [.str "m"] emptyWorld⟩

/-- C2: `SetTimeFormat f` does store `f` in the Logger, but emission is
completely unaffected by it — `Print`/`Printf` format the timestamp with
the constant `time.ANSIC` layout and never read the Logger's `timeFormat`
field (a `LogWriter` holds no reference to its `Logger` at all). The last
two conjuncts evaluate the code at the failing input: after
`SetTimeFormat "2006-01-02"`, an emission still renders the timestamp in
the ANSIC layout, which differs from the requested layout's rendering. -/
theorem C2_setTimeFormat_not_used_by_print :
    (∀ (l : Logger) (f : String), (l.SetTimeFormat f).timeFormat = f)
    ∧ (∀ (l : Logger) (f : String) (L : LogLevel), sinkFor (l.SetTimeFormat f) L = sinkFor l L)
    ∧ (∀ (l : Logger) (f : String) (L : LogLevel) (now : GoTime) (v : List GoValue) (world : World),
        (sinkFor (l.SetTimeFormat f) L).Print now v world = (sinkFor l L).Print now v world)
    ∧ readDest (.buf 0) ((sinkFor buggyLogger .LevelNotice).Print 5 [] emptyWorld) =
        formatTime ansic 5 ++ EOL
    ∧ formatTime ansic 5 ≠ formatTime "2006-01-02" 5 := by
  refine ⟨fun l f => rfl, fun l f L => by cases L <;> rfl,
    fun l f L now v world => by cases L <;> rfl, ?_, by decide⟩
  rfl

/-- C6: `SetFormat` is atomic in its error handling: it returns no error
exactly when the format parses; when parsing fails it returns the parse
error and the Logger — every sink's template included — is exactly the
state before the call (the parse happens before any mutation). -/
theorem C6_setFormat_parse_atomic (l : Logger) (f : String) :
    ((l.SetFormat f).2 = none ↔ ∃ t, parseTemplate f = .ok t)
    ∧ (∀ e, parseTemplate f = .error e → l.SetFormat f = (l, some e))
    ∧ (∀ t, parseTemplate f = .ok t → (l.SetFormat f).2 = none) := by
  cases hp : parseTemplate f with
  | ok t => simp [Logger.SetFormat, hp]
  | error e => simp [Logger.SetFormat, hp]

theorem C6_setFormat_parse_atomic_witness :
    parseTemplate "\x7b\x7b.Time" = Except.error "unclosed action"
    ∧ testLogger.SetFormat "\x7b\x7b.Time" = (testLogger, some "unclosed action") :=
  ⟨rfl, (C6_setFormat_parse_atomic testLogger "\x7b\x7b.Time").2.1 "unclosed action" rfl⟩

/-- C7: after a successful `SetFormat`, every one of the seven sinks holds
the same single parsed template, so rendering is changed uniformly; with
the spec's example template, an emission at NOTICE with message `hi` into a
capturing buffer yields exactly the bytes `> NOTICE hi` followed by the
line terminator. -/
theorem C7_setFormat_uniform_template (l : Logger) (f : String) (t : Template)
    (hp : parseTemplate f = .ok t) :
    (∀ L, (sinkFor (l.SetFormat f).1 L).template = t)
    ∧ (∀ L L', (sinkFor (l.SetFormat f).1 L).template = (sinkFor (l.SetFormat f).1 L').template)
    ∧ readDest (.buf 0)
        ((sinkFor ((testLogger.SetWriter (.buf 0)).SetFormat arrowFormat).1 .LevelNotice).Print
          0 [.str "hi"] emptyWorld) = "> NOTICE hi\n" := by
  have hall : ∀ L, (sinkFor (l.SetFormat f).1 L).template = t := by
    intro L
    simp only [Logger.SetFormat, hp]
    cases L <;> rfl
  refine ⟨hall, fun L L' => by rw [hall L, hall L'], ?_⟩
  rfl

theorem C7_setFormat_uniform_template_witness :
    parseTemplate arrowFormat = Except.ok (mustParse arrowFormat)
    ∧ ((∀ L, (sinkFor (testLogger.SetFormat arrowFormat).1 L).template = mustParse arrowFormat)
      ∧ (∀ L L', (sinkFor (testLogger.SetFormat arrowFormat).1 L).template =
          (sinkFor (testLogger.SetFormat arrowFormat).1 L').template)
      ∧ readDest (.buf 0)
          ((sinkFor ((testLogger.SetWriter (.buf 0)).SetFormat arrowFormat).1 .LevelNotice).Print
            0 [.str "hi"] emptyWorld) = "> NOTICE hi\n") :=
  ⟨rfl, C7_setFormat_uniform_template testLogger arrowFormat (mustParse arrowFormat) rfl⟩

/-- C8: both constructors return a Logger with threshold NOTICE, default
destination standard output, the seven sinks carrying the seven distinct
fixed levels, and destinations already distributed by the threshold rule
(FATAL..NOTICE at standard output, INFO and DEBUG at discard);
`NewPlainLogger` leaves every sink with the parsed default template
`\x7bTime\x7d [\x7bLevel\x7d] \x7bMessage\x7d` while `NewLogger` assigns
each level its distinct preset colorized template. -/
theorem C8_constructors_defaults (name : String) :
    ∃ lp lc : Logger,
      NewPlainLogger name = some lp ∧ NewLogger name = some lc
      ∧ lp.outputLevel = DefaultLogLevel ∧ lc.outputLevel = DefaultLogLevel
      ∧ DefaultLogLevel = LogLevel.LevelNotice
      ∧ lp.defaultLogWriter = Dest.stdout ∧ lc.defaultLogWriter = Dest.stdout
      ∧ levelsWellFormed lp ∧ levelsWellFormed lc
      ∧ (∀ L, (sinkFor lp L).writer =
          if levelNum L ≤ levelNum LogLevel.LevelNotice then Dest.stdout else Dest.discard)
      ∧ (∀ L, (sinkFor lc L).writer =
          if levelNum L ≤ levelNum LogLevel.LevelNotice then Dest.stdout else Dest.discard)
      ∧ (∀ L, (sinkFor lp L).template = mustParse DefaultLogFormat)
      ∧ (∀ L, (sinkFor lc L).template = coloredTemplate L)
      ∧ (∀ L L', coloredTemplate L = coloredTemplate L' → L = L') := by
  refine ⟨_, _, rfl, rfl, rfl, rfl, rfl, rfl, rfl, ⟨rfl, rfl, rfl, rfl, rfl, rfl, rfl⟩,
    ⟨rfl, rfl, rfl, rfl, rfl, rfl, rfl⟩, ?_, ?_, ?_, ?_, ?_⟩
  · intro L
    cases L <;> rfl
  · intro L
    cases L <;> rfl
  · intro L
    cases L <;> rfl
  · intro L
    cases L <;> rfl
  · intro L L' hEq
    cases L <;> cases L' <;> first | rfl | exact absurd hEq (by decide)

/-- C9: `Print` and `Printf` return no error indication: the resulting
state is a total function of the inputs, fully described below with no
hypothesis that template execution or the destination write succeeded — a
template-execution error truncates the rendered text to the partial output
(already part of `renderTemplate`'s first component) and a failing
(`broken`) or non-capturing destination retains nothing, but the call is
indistinguishable from success at the interface. -/
theorem C9_print_absorbs_errors (w : LogWriter) (now : GoTime) (format : String)
    (v : List GoValue) (world : World) (d' : Dest) :
    (readDest d' (w.Print now v world) =
      if d' = w.writer ∧ isCapturing w.writer = true then
        readDest d' world ++
          (renderTemplate w.template
            { Time := formatTime ansic now, Level := LevelString w.level,
              Message := sprint v }).1 ++ EOL
      else readDest d' world)
    ∧ (readDest d' (w.Printf now format v world) =
      if d' = w.writer ∧ isCapturing w.writer = true then
        readDest d' world ++
          (renderTemplate w.template
            { Time := formatTime ansic now, Level := LevelString w.level,
              Message := sprintf format v }).1 ++ EOL
      else readDest d' world) :=
  ⟨Print_readDest w now v world d', Printf_readDest w now format v world d'⟩

/-- C10: each `Print`/`Printf` call appends to the sink's destination
exactly the template output followed by one line terminator, with no
hypothesis that template execution succeeded: when execution fails midway
the terminator is still written right after the partial output (see the
witness, whose template fails after emitting `A`). -/
theorem C10_print_appends_one_eol (w : LogWriter) (n : Nat) (h : w.writer = Dest.buf n)
    (now : GoTime) (format : String) (v : List GoValue) (world : World) :
    (readDest (.buf n) (w.Print now v world) =
      readDest (.buf n) world ++
        (renderTemplate w.template
          { Time := formatTime ansic now, Level := LevelString w.level,
            Message := sprint v }).1 ++ EOL)
    ∧ (readDest (.buf n) (w.Printf now format v world) =
      readDest (.buf n) world ++
        (renderTemplate w.template
          { Time := formatTime ansic now, Level := LevelString w.level,
            Message := sprintf format v }).1 ++ EOL) := by
  constructor
  · rw [Print_readDest, h]
    simp [isCapturing]
  · rw [Printf_readDest, h]
    simp [isCapturing]

theorem C10_print_appends_one_eol_witness :
    failingSink.writer = Dest.buf 0
    ∧ (renderTemplate failingSink.template
        { Time := formatTime ansic 0, Level := LevelString failingSink.level,
          Message := sprint [.str "hi"] }).2 = some "cannot evaluate field Foo"
    ∧ readDest (.buf 0) (failingSink.Print 0 [.str "hi"] emptyWorld) = "A" ++ EOL := by
  refine ⟨rfl, rfl, ?_⟩
  rw [(C10_print_appends_one_eol failingSink 0 rfl 0 "" [.str "hi"] emptyWorld).1]
  rfl

/-- Each preset colorized template really parsed (the `template.Must`
panic branch is dead). -/
theorem coloredTemplatesParsed : ∀ L, coloredTemplate L ≠ ([] : Template) := by
  intro L
  cases L <;> decide

/-- Both constructors always succeed: the default format literal parses, so
the `panic` path of `NewLogger`/`NewPlainLogger` is unreachable. -/
theorem constructorsNeverPanic (name : String) :
    (NewPlainLogger name).isSome = true ∧ (NewLogger name).isSome = true := by
  constructor <;> rfl
